import Mathlib

set_option autoImplicit false

/-!
Verification development for the agent core of the ai-agent-system
repository (src/agent.py, with src/backup-agent.py sharing the same
tool-executor and native-adapter logic).

The embedding models:
- the tool executor `execute_tool` as a state transformer over an
  abstract operating-system state (`OSState`) whose subprocess and
  filesystem behaviour is given by oracles;
- the `AIAgent` object as a record `Agent` mirroring its Python
  attributes; a client attribute that is never assigned in Python is
  modelled as a `Bool` field that is `false` (reading it while `false`
  raises an attribute error);
- provider behaviour (Anthropic, Gemini, Ollama) as an `Oracle` of
  scripted responses; a raised Python exception is an `Except.error`
  carrying the exception message string.

Logging calls (`_log_to_transcript`, `_log_to_actions`, `_log_to_file`)
swallow all of their own failures in the source and never influence the
returned values, so they are omitted from the embedding.  The system
prompt file bootstrap is likewise peripheral; the prompt text is passed
to the constructor as a parameter.
-/

/-- Tool arguments: the `tool_input` dict, as an association list. -/
abbrev ToolInput := List (String × String)

/-- Dict lookup, `tool_input[k]`; `none` models a `KeyError`. -/
def lookupArg : ToolInput → String → Option String
  | [], _ => none
  | (k, v) :: rest, key => if k = key then some v else lookupArg rest key

/-- The message carried by a Python `KeyError` for key `k`: `str(KeyError(k))` is the repr of the key. -/
def keyErrMsg (k : String) : String := "\x27" ++ k ++ "\x27"

/-- The message carried by the `FileNotFoundError` raised by `open` on a missing path. -/
def fileNotFoundMsg (p : String) : String :=
  "[Errno 2] No such file or directory: \x27" ++ p ++ "\x27"

/-- Structured tool results, one variant per tool, plus the error descriptor. -/
inductive ToolResult
  | bashOut (stdout stderr : String) (exit_code : Int)
  | fileContent (content path : String)
  | writeSuccess (path : String)
  | listing (listing stderr : String) (exit_code : Int)
  | searchResults (results : String)
  | error (msg : String)
deriving DecidableEq

/-- Outcome of `subprocess.run(cmd, shell=True, timeout=60, ...)`. -/
inductive BashOutcome
  | completed (stdout stderr : String) (code : Int)
  | timeout
  | raised (msg : String)
deriving DecidableEq

/-- Outcome of a `subprocess.run` call that has no timeout parameter. -/
inductive CmdOutcome
  | completed (stdout stderr : String) (code : Int)
  | raised (msg : String)
deriving DecidableEq

/-- Abstract operating-system state: a path-to-content file map, the set of
existing directories, and oracles for the three kinds of subprocess calls
the executor makes.  `bash` receives the command and the timeout value the
source passes (`timeout=60`). -/
structure OSState where
  home : String
  files : String → Option String
  dirs : List String
  bash : String → Nat → BashOutcome
  ls : String → CmdOutcome
  shell : String → CmdOutcome

/-- Model of `os.path.expanduser`: a path that is exactly a tilde, or starts
with a tilde and a slash, has the tilde replaced by the home directory;
other paths are unchanged. -/
def expanduser (home p : String) : String :=
  if p = "~" then home
  else if p.data.take 2 = ['~', ('/' : Char)] then home ++ String.mk (p.data.drop 1)
  else p

/-- Split a path at slashes (character-list based, so that proofs can
evaluate it). -/
def splitOnSlash (p : String) : List String :=
  (p.data.splitOn ('/' : Char)).map String.mk

/-- Join path components with slashes. -/
def joinSlash : List String → String
  | [] => ""
  | [x] => x
  | x :: xs => x ++ "/" ++ joinSlash xs

/-- Model of `os.path.dirname`: everything before the last slash. -/
def dirname (p : String) : String :=
  joinSlash ((splitOnSlash p).dropLast)

/-- All ancestor directories a call to `os.makedirs(d, exist_ok=True)` creates. -/
def ancestors (d : String) : List String :=
  (List.range (splitOnSlash d).length).map
    (fun i => joinSlash ((splitOnSlash d).take (i + 1)))

/-- Effect of `os.makedirs(d, exist_ok=True)` on the directory set. -/
def mkdirs (st : OSState) (d : String) : OSState :=
  { st with dirs := ancestors d ++ st.dirs }

/-- Pointwise update of the file map: `open(k, "w")` truncation and writes. -/
def updateFn (f : String → Option String) (k v : String) : String → Option String :=
  fun q => if q = k then some v else f q

/-- Exceptions the body of `execute_tool` can raise, as distinguished by its handlers. -/
inductive PyErr
  | timeoutExpired
  | exn (msg : String)
deriving DecidableEq

/-- Message the `except` clauses of `execute_tool` turn a raised exception into. -/
def pyErrMsg : PyErr → String
  | .timeoutExpired => "Command timed out after 60 seconds"
  | .exn m => m

/-- The shell command `search_files` builds (src/agent.py lines 351 to 354):
the pattern and the (already expanded) path are interpolated verbatim. -/
def searchCmd (p pat stype : String) : String :=
  if stype = "filename" then
    "find " ++ p ++ " -name \x27*" ++ pat ++ "*\x27 2>/dev/null"
  else
    "grep -r \x27" ++ pat ++ "\x27 " ++ p ++ " 2>/dev/null"

/-- The body of `execute_tool` (the code inside its `try`), src/agent.py
lines 268 to 365.  Returns the raised exception or the returned value
(`none` models Python falling off the end of the function and returning
`None`), together with the operating-system state at that moment. -/
def executeToolBody (st : OSState) (name : String) (input : ToolInput) :
    Except PyErr (Option ToolResult) × OSState :=
  if name = "run_bash" then
    match lookupArg input "command" with
    | none => (.error (.exn (keyErrMsg "command")), st)
    | some cmd =>
      match st.bash cmd 60 with
      | .completed out err code => (.ok (some (.bashOut out err code)), st)
      | .timeout => (.error .timeoutExpired, st)
      | .raised m => (.error (.exn m), st)
  else if name = "read_file" then
    match lookupArg input "path" with
    | none => (.error (.exn (keyErrMsg "path")), st)
    | some p0 =>
      let p := expanduser st.home p0
      match st.files p with
      | some c => (.ok (some (.fileContent c p)), st)
      | none => (.error (.exn (fileNotFoundMsg p)), st)
  else if name = "write_file" then
    match lookupArg input "path" with
    | none => (.error (.exn (keyErrMsg "path")), st)
    | some p0 =>
      let p := expanduser st.home p0
      let st1 := mkdirs st (if dirname p = "" then "." else dirname p)
      let st2 := { st1 with files := updateFn st1.files p "" }
      match lookupArg input "content" with
      | none => (.error (.exn (keyErrMsg "content")), st2)
      | some content =>
        (.ok (some (.writeSuccess p)), { st2 with files := updateFn st2.files p content })
  else if name = "list_directory" then
    match lookupArg input "path" with
    | none => (.error (.exn (keyErrMsg "path")), st)
    | some p0 =>
      let p := expanduser st.home p0
      match st.ls p with
      | .completed out err code => (.ok (some (.listing out err code)), st)
      | .raised m => (.error (.exn m), st)
  else if name = "search_files" then
    match lookupArg input "path" with
    | none => (.error (.exn (keyErrMsg "path")), st)
    | some p0 =>
      match lookupArg input "pattern" with
      | none => (.error (.exn (keyErrMsg "pattern")), st)
      | some pat =>
        match lookupArg input "search_type" with
        | none => (.error (.exn (keyErrMsg "search_type")), st)
        | some stype =>
          let p := expanduser st.home p0
          match st.shell (searchCmd p pat stype) with
          | .completed out _ _ => (.ok (some (.searchResults out)), st)
          | .raised m => (.error (.exn m), st)
  else
    (.ok none, st)

/-- `execute_tool` (src/agent.py lines 265 to 371): the body wrapped in the
two `except` clauses, which convert any raised exception into an
`{error: string}` result. -/
def execute_tool (st : OSState) (name : String) (input : ToolInput) :
    Option ToolResult × OSState :=
  match executeToolBody st name input with
  | (.ok r, st1) => (r, st1)
  | (.error e, st1) => (some (.error (pyErrMsg e)), st1)

/-- A content block of a native (Anthropic) provider response: text blocks
carry a `text` attribute, tool-use blocks carry id, name and input. -/
inductive ContentBlock
  | text (s : String)
  | toolUse (id name : String) (input : ToolInput)
deriving DecidableEq

/-- A native provider response: content blocks plus a stop reason. -/
structure AnthResponse where
  content : List ContentBlock
  stop_reason : String
deriving DecidableEq

/-- One entry of `self.conversation_history`.  User turns and the plain-text
assistant turns appended by the Gemini path carry strings; the native path
appends block lists and tool-result lists. -/
inductive HMsg
  | user (text : String)
  | assistantBlocks (content : List ContentBlock)
  | assistantText (text : String)
  | toolResults (items : List (String × Option ToolResult))
deriving DecidableEq

/-- A tool call inside an OpenAI-compatible response; `arguments` is the
already-parsed argument mapping. -/
structure OToolCall where
  id : String
  name : String
  arguments : ToolInput
deriving DecidableEq

/-- An OpenAI-compatible response message: optional content plus tool calls. -/
structure OllamaResponse where
  content : Option String
  tool_calls : List OToolCall
deriving DecidableEq

/-- A message of the local `openai_messages` list built by `_chat_ollama`. -/
inductive OMsg
  | system (content : String)
  | chatMsg (role content : String)
  | assistantCalls (content : String) (calls : List OToolCall)
  | toolResult (tool_call_id : String) (result : Option ToolResult)
deriving DecidableEq

/-- The `AIAgent` object: one field per Python attribute the core reads.
Client attributes are presence flags (`true` means the attribute holds a
client object); `ollama_client` mirrors an attribute that no code path
ever assigns, so reading it while `false` raises an `AttributeError`. -/
structure Agent where
  provider : String
  model : String
  anthropic_key : Option String
  openai_key : Option String
  gemini_key : Option String
  ollama_url : String
  client : Bool
  anthropic_client : Bool
  openai_client : Bool
  gemini_client : Bool
  ollama_client : Bool
  conversation_history : List HMsg
  system_prompt : String
  os : OSState

/-- Scripted behaviour of the external providers for one `chat` call.
`anth` lists the outcomes of successive `messages.create` calls; `gemini`
is the outcome of the single `generate_content` call (`ok none` and
`ok (some "")` model a falsy `response.text`); `health` is the Ollama
connectivity probe; `ollamaCreate` maps the current message list to the
outcome of `chat.completions.create`. -/
structure Oracle where
  anth : List (Except String AnthResponse)
  gemini : Except String (Option String)
  health : Except String Unit
  ollamaCreate : List OMsg → Except String OllamaResponse

/-- Python truthiness of `ANTHROPIC_API_KEY` and friends. -/
def keyTruthy : Option String → Bool
  | none => false
  | some s => !(s = "")

/-- Module-level import flags `HAS_OPENAI` and `HAS_GEMINI`. -/
structure PyEnv where
  has_openai : Bool
  has_gemini : Bool

/-- The environment variables `AIAgent.__init__` reads via `os.getenv`. -/
structure EnvVars where
  ai_model : Option String
  ai_provider : Option String
  anthropic_api_key : Option String
  openai_api_key : Option String
  gemini_api_key : Option String
  ollama_url : Option String

/-- `AIAgent.__init__` (src/agent.py lines 30 to 77): reads configuration,
initialises the client attributes for the selected provider, raising on a
missing credential, missing library, or unknown provider; afterwards sets
up the Anthropic fallback client when the key is available.  Note that no
branch assigns `ollama_client`. -/
def AIAgent.init (pe : PyEnv) (ev : EnvVars) (os0 : OSState) (sys_prompt : String) :
    Except String Agent :=
  let a0 : Agent := {
    provider := ev.ai_provider.getD "gemini"
    model := ev.ai_model.getD "gemini-2.0-flash-exp"
    anthropic_key := ev.anthropic_api_key
    openai_key := ev.openai_api_key
    gemini_key := ev.gemini_api_key
    ollama_url := ev.ollama_url.getD "http://localhost:11434/v1"
    client := false
    anthropic_client := false
    openai_client := false
    gemini_client := false
    ollama_client := false
    conversation_history := []
    system_prompt := sys_prompt
    os := os0 }
  let branch : Except String Agent :=
    if a0.provider = "anthropic" then
      if keyTruthy a0.anthropic_key = false then .error "ANTHROPIC_API_KEY not found"
      else .ok { a0 with client := true, anthropic_client := true }
    else if a0.provider = "ollama" then
      if pe.has_openai = false then
        .error "OpenAI library required for Ollama. Install: pip install openai"
      else .ok { a0 with client := true, openai_client := true }
    else if a0.provider = "gemini" then
      if pe.has_gemini = false then
        .error "Gemini library required. Install: pip install google-generativeai"
      else if keyTruthy a0.gemini_key = false then .error "GEMINI_API_KEY not found"
      else .ok { a0 with gemini_client := true }
    else .error ("Unknown provider: " ++ a0.provider)
  branch.map (fun a1 =>
    if keyTruthy a1.anthropic_key && !a1.anthropic_client then
      { a1 with anthropic_client := true }
    else a1)

/-- `switch_provider` (src/agent.py lines 610 to 656): saves the old
identity, mutates provider and model, validates and re-initialises clients
for the new provider, and on any raise restores provider and model before
re-raising. -/
def switch_provider (pe : PyEnv) (a : Agent) (new_provider : String)
    (new_model : Option String) : Except String Bool × Agent :=
  let old_provider := a.provider
  let old_model := a.model
  let a1 := { a with provider := new_provider, model := new_model.getD a.model }
  let body : Except String Agent :=
    if a1.provider = "anthropic" then
      if keyTruthy a1.anthropic_key = false then .error "ANTHROPIC_API_KEY not found"
      else .ok { a1 with client := true, anthropic_client := true }
    else if a1.provider = "gemini" then
      if pe.has_gemini = false then
        .error "Gemini library required. Install: pip install google-generativeai"
      else if keyTruthy a1.gemini_key = false then .error "GEMINI_API_KEY not found"
      else .ok { a1 with gemini_client := true }
    else if a1.provider = "ollama" then
      if pe.has_openai = false then
        .error "OpenAI library required for Ollama. Install: pip install openai"
      else .ok { a1 with client := true, openai_client := true }
    else .error ("Unknown provider: " ++ a1.provider)
  match body with
  | .ok a2 => (.ok true, a2)
  | .error e => (.error e, { a1 with provider := old_provider, model := old_model })

/-- Concatenation of the text of all text-bearing content blocks
(`hasattr(block, "text")` holds exactly for text blocks). -/
def concatTexts : List ContentBlock → String
  | [] => ""
  | .text s :: rest => s ++ concatTexts rest
  | .toolUse _ _ _ :: rest => concatTexts rest

/-- Execute every tool-use block of a native response in order, threading
the operating-system state, and collect `(tool_use_id, result)` pairs. -/
def runToolUses : List ContentBlock → Agent → List (String × Option ToolResult) × Agent
  | [], a => ([], a)
  | .text _ :: rest, a => runToolUses rest a
  | .toolUse id name inp :: rest, a =>
    let r := execute_tool a.os name inp
    let rec1 := runToolUses rest { a with os := r.2 }
    ((id, r.1) :: rec1.1, rec1.2)

/-- The `while True` loop of `_chat_anthropic` (src/agent.py lines 424 to
474).  Each iteration consumes one scripted outcome of `messages.create`;
an exhausted script models the provider call raising. -/
def chatAnthropicLoop : List (Except String AnthResponse) → Agent → String →
    Except String String × Agent
  | [], a, _ => (.error "StopIteration", a)
  | .error e :: _, a, _ => (.error e, a)
  | .ok resp :: rest, a, acc =>
    let a1 := { a with conversation_history :=
      a.conversation_history ++ [.assistantBlocks resp.content] }
    if resp.stop_reason = "end_turn" then
      let t := acc ++ concatTexts resp.content
      (.ok (if t = "" then "Task completed" else t), a1)
    else if resp.stop_reason = "tool_use" then
      let r := runToolUses resp.content a1
      let a2 := { r.2 with conversation_history :=
        r.2.conversation_history ++ [.toolResults r.1] }
      chatAnthropicLoop rest a2 acc
    else
      chatAnthropicLoop rest a1 acc

/-- `_chat_anthropic` (src/agent.py lines 420 to 474): runs the loop with an
empty accumulator; a `None` client raises an attribute error. -/
def chatAnthropic (o : Oracle) (a : Agent) : Except String String × Agent :=
  if a.anthropic_client then chatAnthropicLoop o.anth a ""
  else (.error "\x27NoneType\x27 object has no attribute \x27messages\x27", a)

/-- Sentinel text `_chat_gemini` substitutes for a falsy `response.text`. -/
def geminiApology : String := "I apologize, but I couldn\x27t generate a response."

/-- The body of the `try` in `_chat_gemini` (src/agent.py lines 478 to 511):
one `generate_content` call; a falsy response text is replaced by the
apology sentinel; the response is appended to the history on success. -/
def geminiCore (o : Oracle) (a : Agent) : Except String String × Agent :=
  if a.gemini_client then
    match o.gemini with
    | .error e => (.error e, a)
    | .ok t? =>
      let rt := match t? with
        | none => geminiApology
        | some t => if t = "" then geminiApology else t
      (.ok rt, { a with conversation_history :=
        a.conversation_history ++ [.assistantText rt] })
  else (.error "\x27NoneType\x27 object has no attribute \x27generate_content\x27", a)

/-- `_chat_gemini` (src/agent.py lines 476 to 520): on any raise inside the
body, falls back to `_chat_anthropic` when an Anthropic client is
configured, otherwise re-raises. -/
def chatGemini (o : Oracle) (a : Agent) : Except String String × Agent :=
  match geminiCore o a with
  | (.ok t, a1) => (.ok t, a1)
  | (.error e, a1) =>
    if a1.anthropic_client then chatAnthropic o a1 else (.error e, a1)

/-- Message of the `AttributeError` raised by reading the never-assigned
`self.ollama_client`. -/
def ollamaAttrErr : String :=
  "\x27AIAgent\x27 object has no attribute \x27ollama_client\x27"

/-- Conversion of the conversation history into the local `openai_messages`
list: only entries whose content is a string are kept. -/
def omsgsOfHistory : List HMsg → List OMsg
  | [] => []
  | .user t :: rest => .chatMsg "user" t :: omsgsOfHistory rest
  | .assistantText t :: rest => .chatMsg "assistant" t :: omsgsOfHistory rest
  | .assistantBlocks _ :: rest => omsgsOfHistory rest
  | .toolResults _ :: rest => omsgsOfHistory rest

/-- Execute the tool calls of one OpenAI-compatible response in order,
appending one tool-result message per call and threading the
operating-system state. -/
def runOllamaTools : List OToolCall → Agent → List OMsg → List OMsg × Agent
  | [], a, msgs => (msgs, a)
  | c :: rest, a, msgs =>
    let r := execute_tool a.os c.name c.arguments
    runOllamaTools rest { a with os := r.2 } (msgs ++ [.toolResult c.id r.1])

/-- The `for iteration in range(max_iterations)` loop of `_chat_ollama`
(src/agent.py lines 540 to 602).  The fuel is the number of remaining
iterations; exhausting it returns the sentinel.  The third component
counts how many `chat.completions.create` calls were issued.  Reading the
never-assigned `ollama_client` attribute raises before any provider call;
any raise inside the loop body falls back to `_chat_anthropic` when that
client is configured, and re-raises otherwise. -/
def chatOllamaLoop (o : Oracle) : Nat → List OMsg → Agent →
    Except String String × Agent × Nat
  | 0, _, a => (.ok "Maximum iterations reached", a, 0)
  | fuel + 1, msgs, a =>
    if a.ollama_client then
      match o.ollamaCreate msgs with
      | .error e =>
        if a.anthropic_client then
          let r := chatAnthropic o a
          (r.1, r.2, 1)
        else (.error e, a, 1)
      | .ok resp =>
        match resp.tool_calls with
        | [] =>
          let t := resp.content.getD ""
          (.ok (if t = "" then "Task completed" else t), a, 1)
        | c :: cs =>
          let msgs1 := msgs ++ [OMsg.assistantCalls (resp.content.getD "") (c :: cs)]
          let r := runOllamaTools (c :: cs) a msgs1
          let rec1 := chatOllamaLoop o fuel r.1 r.2
          (rec1.1, rec1.2.1, rec1.2.2 + 1)
    else
      if a.anthropic_client then
        let r := chatAnthropic o a
        (r.1, r.2, 0)
      else (.error ollamaAttrErr, a, 0)

/-- `_chat_ollama` (src/agent.py lines 522 to 602): builds the initial
message list from the system prompt and the string-content history entries
and runs up to ten iterations. -/
def chatOllama (o : Oracle) (a : Agent) : Except String String × Agent × Nat :=
  chatOllamaLoop o 10 (.system a.system_prompt :: omsgsOfHistory a.conversation_history) a

/-- The body of the `try` in `chat` (src/agent.py lines 383 to 409):
dispatch on the active provider; the ollama branch first probes
connectivity and wraps any failure of the probe or of `_chat_ollama` into
a new exception when no Anthropic fallback exists. -/
def primaryAttempt (o : Oracle) (a : Agent) : Except String String × Agent :=
  if a.provider = "anthropic" then chatAnthropic o a
  else if a.provider = "gemini" then chatGemini o a
  else if a.provider = "ollama" then
    let inner : Except String String × Agent :=
      match o.health with
      | .ok _ =>
        let r := chatOllama o a
        (r.1, r.2.1)
      | .error e => (.error e, a)
    match inner with
    | (.ok t, a1) => (.ok t, a1)
    | (.error e, a1) =>
      if a1.anthropic_client then chatAnthropic o a1
      else (.error ("Ollama unavailable and no Anthropic fallback: " ++ e), a1)
  else (.error ("Unknown provider: " ++ a.provider), a)

/-- `chat` (src/agent.py lines 373 to 418): appends the user turn, tries the
primary provider, and on a raise falls back to `_chat_anthropic` when an
Anthropic client is configured and the active provider is not anthropic;
otherwise re-raises. -/
def chat (o : Oracle) (a : Agent) (msg : String) : Except String String × Agent :=
  let a1 := { a with conversation_history := a.conversation_history ++ [.user msg] }
  match primaryAttempt o a1 with
  | (.ok t, a2) => (.ok t, a2)
  | (.error e, a2) =>
    if a2.anthropic_client && !(a2.provider = "anthropic") then chatAnthropic o a2
    else (.error e, a2)

/-- A concrete operating-system state used by witnesses. -/
def sampleOS : OSState where
  home := "/root"
  files := fun _ => none
  dirs := ["/"]
  bash := fun _ _ => .completed "" "" 0
  ls := fun _ => .completed "" "" 0
  shell := fun c => .completed c "" 0

set_option maxHeartbeats 1000000 in
/-- Helper: on the five registered tool names the body never reaches the end
of the function, so it never produces the fall-through `None`. -/
theorem executeToolBody_registered_not_none (st : OSState) (name : String) (input : ToolInput)
    (h : name ∈ ["run_bash", "read_file", "write_file", "list_directory", "search_files"]) :
    (executeToolBody st name input).1 ≠ Except.ok none := by
  fin_cases h <;>
    · simp only [executeToolBody]
      repeat' split
      all_goals simp_all

/-- C1: for each of the five registered tool names and every argument
mapping, `execute_tool` always returns a result value (never the
fall-through `None`, never a propagating exception), and every exception
its body raises is captured into an `{error: string}` result, a subprocess
timeout mapping to the specific timeout error message. -/
theorem execute_tool_never_raises (st : OSState) (name : String) (input : ToolInput) :
    (name ∈ ["run_bash", "read_file", "write_file", "list_directory", "search_files"] →
      (execute_tool st name input).1.isSome = true)
    ∧ (∀ e, (executeToolBody st name input).1 = .error e →
        (execute_tool st name input).1 = some (.error (pyErrMsg e))) := by
  constructor
  · intro h
    have hnn := executeToolBody_registered_not_none st name input h
    rcases hb : executeToolBody st name input with ⟨res, st1⟩
    rw [hb] at hnn
    match res with
    | .ok (some r) => simp [execute_tool, hb]
    | .ok none => exact absurd rfl hnn
    | .error e => simp [execute_tool, hb]
  · intro e he
    rcases hb : executeToolBody st name input with ⟨res, st1⟩
    rw [hb] at he
    have he2 : res = .error e := he
    subst he2
    simp [execute_tool, hb]

/-- Witness for C1 at the concrete name `run_bash` with an empty argument
mapping: the result is present, and the raised `KeyError` is captured as an
error result. -/
theorem execute_tool_never_raises_witness :
    (execute_tool sampleOS "run_bash" []).1.isSome = true
    ∧ (execute_tool sampleOS "run_bash" []).1
        = some (.error (pyErrMsg (.exn (keyErrMsg "command")))) :=
  ⟨(execute_tool_never_raises sampleOS "run_bash" []).1 (by simp),
   (execute_tool_never_raises sampleOS "run_bash" []).2 (.exn (keyErrMsg "command")) rfl⟩

/-- C10: for every tool name outside the five registered ones, no branch of
`execute_tool` matches, control falls off the end of the function, and the
call returns the Python `None` (no structured result, no error descriptor)
without raising and without touching the state. -/
theorem execute_tool_unknown_none (st : OSState) (name : String) (input : ToolInput)
    (h : name ∉ ["run_bash", "read_file", "write_file", "list_directory", "search_files"]) :
    execute_tool st name input = (none, st) := by
  simp only [List.mem_cons, List.not_mem_nil, or_false, not_or] at h
  obtain ⟨h1, h2, h3, h4, h5⟩ := h
  simp [execute_tool, executeToolBody, h1, h2, h3, h4, h5]

/-- Witness for C10 at a concrete unregistered tool name. -/
theorem execute_tool_unknown_none_witness :
    execute_tool sampleOS "frobnicate" [("command", "ls")] = (none, sampleOS) :=
  execute_tool_unknown_none sampleOS "frobnicate" [("command", "ls")] (by decide)

/-- C4: `run_bash` consults the subprocess oracle with the 60 second timeout
value the source passes; a timeout is returned as exactly the specific
timeout error result, and a completed command returns the captured stdout,
stderr and numeric exit code for every exit code, nonzero included (a
nonzero exit code never produces an error result). -/
theorem run_bash_timeout_and_exit_code (st : OSState) (cmd : String) :
    (st.bash cmd 60 = .timeout →
      execute_tool st "run_bash" [("command", cmd)]
        = (some (.error "Command timed out after 60 seconds"), st))
    ∧ (∀ out err code, st.bash cmd 60 = .completed out err code →
        execute_tool st "run_bash" [("command", cmd)]
          = (some (.bashOut out err code), st)) := by
  constructor
  · intro h
    simp [execute_tool, executeToolBody, lookupArg, h, pyErrMsg]
  · intro out err code h
    simp [execute_tool, executeToolBody, lookupArg, h]

/-- A concrete operating-system state whose shell always times out. -/
def timeoutOS : OSState := { sampleOS with bash := fun _ _ => .timeout }

/-- A concrete operating-system state whose shell always completes with a
nonzero exit code. -/
def exit7OS : OSState := { sampleOS with bash := fun _ _ => .completed "out" "err" 7 }

/-- Witness for C4: a timed-out command and a command with exit code 7. -/
theorem run_bash_timeout_and_exit_code_witness :
    execute_tool timeoutOS "run_bash" [("command", "sleep 120")]
      = (some (.error "Command timed out after 60 seconds"), timeoutOS)
    ∧ execute_tool exit7OS "run_bash" [("command", "false")]
      = (some (.bashOut "out" "err" 7), exit7OS) :=
  ⟨(run_bash_timeout_and_exit_code timeoutOS "sleep 120").1 rfl,
   (run_bash_timeout_and_exit_code exit7OS "false").2 "out" "err" 7 rfl⟩

/-- C7: `write_file` expands a leading tilde, creates all missing parent
directories, fully overwrites the target (leaving every other path
untouched) and returns the success result with the expanded path; a
subsequent `read_file` of the same path returns exactly the written
content. -/
theorem write_then_read_roundtrip (st : OSState) (p0 content : String) :
    (execute_tool st "write_file" [("path", p0), ("content", content)]).1
      = some (.writeSuccess (expanduser st.home p0))
    ∧ ((execute_tool st "write_file" [("path", p0), ("content", content)]).2).files
        (expanduser st.home p0) = some content
    ∧ (∀ q, q ≠ expanduser st.home p0 →
        ((execute_tool st "write_file" [("path", p0), ("content", content)]).2).files q
          = st.files q)
    ∧ (∀ d, d ∈ ancestors (if dirname (expanduser st.home p0) = "" then "."
            else dirname (expanduser st.home p0)) →
        d ∈ ((execute_tool st "write_file" [("path", p0), ("content", content)]).2).dirs)
    ∧ execute_tool (execute_tool st "write_file" [("path", p0), ("content", content)]).2
        "read_file" [("path", p0)]
        = (some (.fileContent content (expanduser st.home p0)),
           (execute_tool st "write_file" [("path", p0), ("content", content)]).2) := by
  have hw : execute_tool st "write_file" [("path", p0), ("content", content)]
      = (some (.writeSuccess (expanduser st.home p0)),
         { st with
            dirs := ancestors (if dirname (expanduser st.home p0) = "" then "."
              else dirname (expanduser st.home p0)) ++ st.dirs
            files := updateFn (updateFn st.files (expanduser st.home p0) "")
              (expanduser st.home p0) content }) := rfl
  rw [hw]
  refine ⟨rfl, by simp [updateFn], ?_, ?_, ?_⟩
  · intro q hq
    simp [updateFn, hq]
  · intro d hd
    exact List.mem_append_left _ hd
  · simp [execute_tool, executeToolBody, lookupArg, updateFn]

/-- Witness for C7: writing `hello` under a tilde path on the sample state
and reading it back. -/
theorem write_then_read_roundtrip_witness :
    (execute_tool sampleOS "write_file"
        [("path", "~/notes/a.txt"), ("content", "hello")]).1
      = some (.writeSuccess "/root/notes/a.txt")
    ∧ ((execute_tool sampleOS "write_file"
        [("path", "~/notes/a.txt"), ("content", "hello")]).2).files "/root/notes/a.txt"
      = some "hello"
    ∧ ((execute_tool sampleOS "write_file"
        [("path", "~/notes/a.txt"), ("content", "hello")]).2).files "/root/other"
      = sampleOS.files "/root/other"
    ∧ "/root/notes" ∈ ((execute_tool sampleOS "write_file"
        [("path", "~/notes/a.txt"), ("content", "hello")]).2).dirs
    ∧ execute_tool (execute_tool sampleOS "write_file"
          [("path", "~/notes/a.txt"), ("content", "hello")]).2
        "read_file" [("path", "~/notes/a.txt")]
      = (some (.fileContent "hello" "/root/notes/a.txt"),
         (execute_tool sampleOS "write_file"
            [("path", "~/notes/a.txt"), ("content", "hello")]).2) :=
  ⟨(write_then_read_roundtrip sampleOS "~/notes/a.txt" "hello").1,
   (write_then_read_roundtrip sampleOS "~/notes/a.txt" "hello").2.1,
   (write_then_read_roundtrip sampleOS "~/notes/a.txt" "hello").2.2.1
     "/root/other" (by decide),
   (write_then_read_roundtrip sampleOS "~/notes/a.txt" "hello").2.2.2.1
     "/root/notes" (by decide),
   (write_then_read_roundtrip sampleOS "~/notes/a.txt" "hello").2.2.2.2⟩

/-- Counterexample for C9: with home `/root`, a `search_files` call with
path argument a bare tilde issues a shell command containing the expanded
home directory, not the verbatim path argument the claim specifies (the
sample shell oracle echoes the command it receives). -/
theorem search_files_path_not_verbatim_cex :
    (execute_tool sampleOS "search_files"
        [("path", "~"), ("pattern", "x"), ("search_type", "filename")]).1
      = some (.searchResults "find /root -name \x27*x*\x27 2>/dev/null")
    ∧ (execute_tool sampleOS "search_files"
        [("path", "~"), ("pattern", "x"), ("search_type", "filename")]).1
      ≠ some (.searchResults "find ~ -name \x27*x*\x27 2>/dev/null") := by
  exact ⟨rfl, by decide⟩

/-- C9 amended: `search_files` tilde-expands the path argument first and
then interpolates the expanded path and the pattern verbatim (no escaping)
into the shell command: in filename mode the command is the `find` form
with the pattern wrapped in wildcards, in content mode the `grep -r` form;
the two modes are mutually exclusive, selected by `search_type`, and the
command is handed to the shell oracle whose stdout becomes the result. -/
theorem search_files_command_amended (st : OSState) (p0 pat stype : String) :
    (stype = "filename" →
      searchCmd (expanduser st.home p0) pat stype
        = "find " ++ expanduser st.home p0 ++ " -name \x27*" ++ pat ++ "*\x27 2>/dev/null")
    ∧ (stype = "content" →
      searchCmd (expanduser st.home p0) pat stype
        = "grep -r \x27" ++ pat ++ "\x27 " ++ expanduser st.home p0 ++ " 2>/dev/null")
    ∧ (∀ out err code,
        st.shell (searchCmd (expanduser st.home p0) pat stype)
          = .completed out err code →
        execute_tool st "search_files"
            [("path", p0), ("pattern", pat), ("search_type", stype)]
          = (some (.searchResults out), st)) := by
  refine ⟨?_, ?_, ?_⟩
  · intro h
    subst h
    simp [searchCmd]
  · intro h
    subst h
    simp [searchCmd]
  · intro out err code h
    simp [execute_tool, executeToolBody, lookupArg, h]

/-- Witness for the amended C9: both command forms at concrete arguments,
and a full content-mode execution on the sample state. -/
theorem search_files_command_amended_witness :
    searchCmd "/root" "x" "filename" = "find /root -name \x27*x*\x27 2>/dev/null"
    ∧ searchCmd "/root" "x" "content" = "grep -r \x27x\x27 /root 2>/dev/null"
    ∧ execute_tool sampleOS "search_files"
        [("path", "~"), ("pattern", "x"), ("search_type", "content")]
      = (some (.searchResults "grep -r \x27x\x27 /root 2>/dev/null"), sampleOS) :=
  ⟨(search_files_command_amended sampleOS "~" "x" "filename").1 rfl,
   (search_files_command_amended sampleOS "~" "x" "content").2.1 rfl,
   (search_files_command_amended sampleOS "~" "x" "content").2.2
     "grep -r \x27x\x27 /root 2>/dev/null" "" 0 rfl⟩

/-- C6: `switch_provider` is atomic with respect to the provider identity:
on any failing switch (missing credential, missing library, or unknown
provider name) the operation raises and leaves the session state equal to
what it was before the call, provider and model fields included; and a
successful switch implies the new provider passed its credential and
library validation before the old identity was discarded. -/
theorem switch_provider_atomic (pe : PyEnv) (a : Agent) (p : String) (m : Option String) :
    (((p = "anthropic" ∧ keyTruthy a.anthropic_key = false)
      ∨ (p = "gemini" ∧ (pe.has_gemini = false ∨ keyTruthy a.gemini_key = false))
      ∨ (p = "ollama" ∧ pe.has_openai = false)
      ∨ p ∉ ["anthropic", "gemini", "ollama"]) →
      (∃ e, (switch_provider pe a p m).1 = .error e)
      ∧ (switch_provider pe a p m).2.provider = a.provider
      ∧ (switch_provider pe a p m).2.model = a.model
      ∧ (switch_provider pe a p m).2 = a)
    ∧ (∀ b, (switch_provider pe a p m).1 = .ok b →
        (p = "anthropic" → keyTruthy a.anthropic_key = true)
        ∧ (p = "gemini" → pe.has_gemini = true ∧ keyTruthy a.gemini_key = true)
        ∧ (p = "ollama" → pe.has_openai = true)) := by
  constructor
  · intro h
    rcases h with ⟨rfl, hk⟩ | ⟨rfl, hg | hk⟩ | ⟨rfl, ho⟩ | hu
    · have hs : switch_provider pe a "anthropic" m
          = (.error "ANTHROPIC_API_KEY not found", a) := by
        simp [switch_provider, hk]
      rw [hs]
      exact ⟨⟨_, rfl⟩, rfl, rfl, rfl⟩
    · have hs : switch_provider pe a "gemini" m
          = (.error "Gemini library required. Install: pip install google-generativeai",
             a) := by
        simp [switch_provider, hg]
      rw [hs]
      exact ⟨⟨_, rfl⟩, rfl, rfl, rfl⟩
    · have hs : switch_provider pe a "gemini" m = (.error "GEMINI_API_KEY not found", a)
          ∨ switch_provider pe a "gemini" m
            = (.error "Gemini library required. Install: pip install google-generativeai",
               a) := by
        cases hg : pe.has_gemini
        · right
          simp [switch_provider, hg]
        · left
          simp [switch_provider, hg, hk]
      rcases hs with hs | hs <;> rw [hs] <;> exact ⟨⟨_, rfl⟩, rfl, rfl, rfl⟩
    · have hs : switch_provider pe a "ollama" m
          = (.error "OpenAI library required for Ollama. Install: pip install openai",
             a) := by
        simp [switch_provider, ho]
      rw [hs]
      exact ⟨⟨_, rfl⟩, rfl, rfl, rfl⟩
    · simp only [List.mem_cons, List.not_mem_nil, or_false, not_or] at hu
      obtain ⟨h1, h2, h3⟩ := hu
      have hs : switch_provider pe a p m = (.error ("Unknown provider: " ++ p), a) := by
        simp [switch_provider, h1, h2, h3]
      rw [hs]
      exact ⟨⟨_, rfl⟩, rfl, rfl, rfl⟩
  · intro b hb
    refine ⟨?_, ?_, ?_⟩
    · intro hp
      subst hp
      cases hk : keyTruthy a.anthropic_key
      · rw [show switch_provider pe a "anthropic" m
            = (.error "ANTHROPIC_API_KEY not found", a) from by simp [switch_provider, hk]]
          at hb
        exact absurd hb (by simp)
      · rfl
    · intro hp
      subst hp
      cases hg : pe.has_gemini
      · rw [show switch_provider pe a "gemini" m
            = (.error "Gemini library required. Install: pip install google-generativeai",
               a) from by simp [switch_provider, hg]] at hb
        exact absurd hb (by simp)
      · cases hk : keyTruthy a.gemini_key
        · rw [show switch_provider pe a "gemini" m
              = (.error "GEMINI_API_KEY not found", a) from by
                simp [switch_provider, hg, hk]] at hb
          exact absurd hb (by simp)
        · exact ⟨rfl, rfl⟩
    · intro hp
      subst hp
      cases ho : pe.has_openai
      · rw [show switch_provider pe a "ollama" m
            = (.error "OpenAI library required for Ollama. Install: pip install openai",
               a) from by simp [switch_provider, ho]] at hb
        exact absurd hb (by simp)
      · rfl

/-- Library flags with both optional client libraries importable. -/
def peW : PyEnv := { has_openai := true, has_gemini := true }

/-- A concrete gemini session used by witnesses. -/
def agentW : Agent where
  provider := "gemini"
  model := "gemini-2.0-flash-exp"
  anthropic_key := none
  openai_key := none
  gemini_key := some "g-key"
  ollama_url := "http://localhost:11434/v1"
  client := false
  anthropic_client := false
  openai_client := false
  gemini_client := true
  ollama_client := false
  conversation_history := []
  system_prompt := "sp"
  os := sampleOS

/-- Witness for C6: switching the concrete gemini session to anthropic with
no anthropic key fails and leaves the session untouched, while a
successful switch to gemini implies its validation held. -/
theorem switch_provider_atomic_witness :
    ((∃ e, (switch_provider peW agentW "anthropic" none).1 = .error e)
      ∧ (switch_provider peW agentW "anthropic" none).2.provider = "gemini"
      ∧ (switch_provider peW agentW "anthropic" none).2.model = "gemini-2.0-flash-exp"
      ∧ (switch_provider peW agentW "anthropic" none).2 = agentW)
    ∧ (peW.has_gemini = true ∧ keyTruthy agentW.gemini_key = true) :=
  ⟨(switch_provider_atomic peW agentW "anthropic" none).1 (Or.inl ⟨rfl, rfl⟩),
   ((switch_provider_atomic peW agentW "gemini" (some "m2")).2 true rfl).2.1 rfl⟩

/-- C8: when the native adapter loop handles a response whose stop reason is
end_turn (the accumulator being the empty string `_chat_anthropic` always
starts it with), the returned final string is the in-order concatenation of
the text of all text-bearing content blocks of that response, with the
sentinel `Task completed` substituted when the concatenation is empty; and
`_chat_anthropic` enters the loop with the empty accumulator. -/
theorem anthropic_end_turn_concat (o : Oracle) (a : Agent) (content : List ContentBlock)
    (rest : List (Except String AnthResponse)) :
    (chatAnthropicLoop (Except.ok ⟨content, "end_turn"⟩ :: rest) a "").1
      = .ok (if concatTexts content = "" then "Task completed" else concatTexts content)
    ∧ chatAnthropic o { a with anthropic_client := true }
      = chatAnthropicLoop o.anth { a with anthropic_client := true } "" := by
  constructor
  · simp [chatAnthropicLoop, String.empty_append]
  · simp [chatAnthropic]

/-- Helper: every agent the constructor successfully returns has
`ollama_client` unset, and an ollama session got its client stored in
`openai_client`. -/
theorem init_client_fields (pe : PyEnv) (ev : EnvVars) (os0 : OSState) (sp : String)
    (a : Agent) (h : AIAgent.init pe ev os0 sp = .ok a) :
    a.ollama_client = false ∧ (ev.ai_provider = some "ollama" → a.openai_client = true) := by
  simp only [AIAgent.init, Except.map] at h
  split at h
  · exact Except.noConfusion h
  · rename_i v heq
    refine ⟨?_, ?_⟩
    · have hv : v.ollama_client = false := by
        repeat' split at heq
        all_goals first
          | exact Except.noConfusion heq
          | (have hq := Except.ok.inj heq; subst hq; rfl)
      have ha := Except.ok.inj h
      subst ha
      split
      · exact hv
      · exact hv
    · intro he
      have hv : v.openai_client = true := by
        repeat' split at heq
        all_goals first
          | exact Except.noConfusion heq
          | (have hq := Except.ok.inj heq; subst hq; simp_all)
      have ha := Except.ok.inj h
      subst ha
      split
      · exact hv
      · exact hv

/-- Helper: `switch_provider` never assigns `ollama_client`, in success and
in failure alike. -/
theorem switch_preserves_ollama_client (pe : PyEnv) (a : Agent) (p : String)
    (m : Option String) :
    ((switch_provider pe a p m).2).ollama_client = a.ollama_client := by
  simp only [switch_provider]
  split
  · rename_i a2 heq
    repeat' split at heq
    all_goals first
      | exact Except.noConfusion heq
      | (have hv := Except.ok.inj heq; subst hv; rfl)
  · rfl

/-- Helper: a successful switch to the ollama provider stores the client in
`openai_client`. -/
theorem switch_ollama_openai_client (pe : PyEnv) (a : Agent) (m : Option String)
    (b : Bool) (hb : (switch_provider pe a "ollama" m).1 = .ok b) :
    ((switch_provider pe a "ollama" m).2).openai_client = true := by
  cases ho : pe.has_openai
  · have hs : switch_provider pe a "ollama" m
        = (.error "OpenAI library required for Ollama. Install: pip install openai", a) := by
      simp [switch_provider, ho]
    rw [hs] at hb
    exact Except.noConfusion hb
  · have hs : switch_provider pe a "ollama" m
        = (.ok true,
           { a with
              provider := "ollama"
              model := m.getD a.model
              client := true
              openai_client := true }) := by
      simp [switch_provider, ho]
    rw [hs]

/-- C5: no code path assigns `ollama_client`: the constructor and
`switch_provider` store the OpenAI client in `openai_client` and leave
`ollama_client` unset, so in every reachable session state `_chat_ollama`
fails on its first iteration with the attribute error, issues zero provider
round-trips, and either returns the Anthropic fallback result or raises —
it can never return a final answer produced by the OpenAI-compatible
provider itself. -/
theorem ollama_client_never_assigned :
    (∀ pe ev os0 sp a, AIAgent.init pe ev os0 sp = .ok a →
      a.ollama_client = false
      ∧ (ev.ai_provider = some "ollama" → a.openai_client = true))
    ∧ (∀ pe a p m, ((switch_provider pe a p m).2).ollama_client = a.ollama_client
        ∧ (∀ b, (switch_provider pe a p m).1 = .ok b → p = "ollama" →
            ((switch_provider pe a p m).2).openai_client = true))
    ∧ (∀ o a, a.ollama_client = false →
        chatOllama o a
          = (if a.anthropic_client then
              ((chatAnthropic o a).1, (chatAnthropic o a).2, 0)
            else (.error ollamaAttrErr, a, 0))) := by
  refine ⟨init_client_fields, ?_, ?_⟩
  · intro pe a p m
    refine ⟨switch_preserves_ollama_client pe a p m, ?_⟩
    intro b hb hp
    subst hp
    exact switch_ollama_openai_client pe a m b hb
  · intro o a h
    cases hac : a.anthropic_client <;>
      simp [chatOllama, chatOllamaLoop, h, hac]

/-- Environment variables selecting the ollama provider with no keys set. -/
def evW : EnvVars where
  ai_model := none
  ai_provider := some "ollama"
  anthropic_api_key := none
  openai_api_key := none
  gemini_api_key := none
  ollama_url := none

/-- The agent the constructor builds from `evW` (client stored in
`openai_client`, `ollama_client` never assigned). -/
def agentOllamaW : Agent where
  provider := "ollama"
  model := "gemini-2.0-flash-exp"
  anthropic_key := none
  openai_key := none
  gemini_key := none
  ollama_url := "http://localhost:11434/v1"
  client := true
  anthropic_client := false
  openai_client := true
  gemini_client := false
  ollama_client := false
  conversation_history := []
  system_prompt := "sp"
  os := sampleOS

/-- A scripted oracle used by witnesses. -/
def oracleW : Oracle where
  anth := []
  gemini := .error "boom"
  health := .ok ()
  ollamaCreate := fun _ => .error "unused"

/-- Witness for C5: the concrete ollama session built by the constructor has
no `ollama_client`, a switch to ollama stores the client in
`openai_client`, and `_chat_ollama` on that session raises the attribute
error after zero provider calls. -/
theorem ollama_client_never_assigned_witness :
    agentOllamaW.ollama_client = false
    ∧ agentOllamaW.openai_client = true
    ∧ ((switch_provider peW agentW "gemini" none).2).ollama_client = agentW.ollama_client
    ∧ ((switch_provider peW agentW "ollama" none).2).openai_client = true
    ∧ chatOllama oracleW agentOllamaW = (.error ollamaAttrErr, agentOllamaW, 0) :=
  ⟨(ollama_client_never_assigned.1 peW evW sampleOS "sp" agentOllamaW rfl).1,
   (ollama_client_never_assigned.1 peW evW sampleOS "sp" agentOllamaW rfl).2 rfl,
   (ollama_client_never_assigned.2.1 peW agentW "gemini" none).1,
   (ollama_client_never_assigned.2.1 peW agentW "ollama" none).2 true rfl rfl,
   ollama_client_never_assigned.2.2 oracleW agentOllamaW rfl⟩

/-- Helper: executing tool calls only touches the operating-system state and
the message list, never the client attributes or the provider identity. -/
theorem runOllamaTools_fields (calls : List OToolCall) (a : Agent) (msgs : List OMsg) :
    ((runOllamaTools calls a msgs).2).ollama_client = a.ollama_client
    ∧ ((runOllamaTools calls a msgs).2).anthropic_client = a.anthropic_client
    ∧ ((runOllamaTools calls a msgs).2).provider = a.provider := by
  induction calls generalizing a msgs with
  | nil => simp [runOllamaTools]
  | cons c cs ih => simp [runOllamaTools, ih]

/-- Helper: the loop of `_chat_ollama` never issues more provider calls than
it has remaining iterations. -/
theorem chatOllamaLoop_calls_le (o : Oracle) :
    ∀ fuel msgs a, (chatOllamaLoop o fuel msgs a).2.2 ≤ fuel := by
  intro fuel
  induction fuel with
  | zero =>
    intro msgs a
    simp [chatOllamaLoop]
  | succ n ih =>
    intro msgs a
    simp only [chatOllamaLoop]
    repeat' split
    all_goals first
      | exact Nat.succ_le_succ (ih _ _)
      | simp_all

/-- Helper: under an oracle that always answers with tool calls, the loop
spends all of its fuel and returns the iteration sentinel. -/
theorem chatOllamaLoop_all_tools (o : Oracle)
    (hO : ∀ ms, ∃ r, o.ollamaCreate ms = .ok r ∧ r.tool_calls ≠ []) :
    ∀ fuel msgs a, a.ollama_client = true →
      (chatOllamaLoop o fuel msgs a).1 = .ok "Maximum iterations reached"
      ∧ (chatOllamaLoop o fuel msgs a).2.2 = fuel := by
  intro fuel
  induction fuel with
  | zero =>
    intro msgs a h
    simp [chatOllamaLoop]
  | succ n ih =>
    intro msgs a h
    obtain ⟨r, hr, hne⟩ := hO msgs
    rcases htc : r.tool_calls with _ | ⟨c, cs⟩
    · exact absurd htc hne
    · have hpre : ((runOllamaTools (c :: cs) a
          (msgs ++ [OMsg.assistantCalls (r.content.getD "") (c :: cs)])).2).ollama_client
          = true := by
        rw [(runOllamaTools_fields _ _ _).1]
        exact h
      have hrec := ih ((runOllamaTools (c :: cs) a
          (msgs ++ [OMsg.assistantCalls (r.content.getD "") (c :: cs)])).1)
        ((runOllamaTools (c :: cs) a
          (msgs ++ [OMsg.assistantCalls (r.content.getD "") (c :: cs)])).2) hpre
      constructor
      · simp [chatOllamaLoop, h, hr, htc, hrec.1]
      · simp [chatOllamaLoop, h, hr, htc, hrec.2]

/-- C3: the OpenAI-compatible adapter loop performs at most ten provider
round-trips; when the client is present and every provider response carries
tool calls, it terminates after exactly ten round-trips and returns exactly
the sentinel string `Maximum iterations reached`. -/
theorem ollama_iteration_bound (o : Oracle) (a : Agent) :
    (chatOllama o a).2.2 ≤ 10
    ∧ (a.ollama_client = true →
      (∀ ms, ∃ r, o.ollamaCreate ms = .ok r ∧ r.tool_calls ≠ []) →
      (chatOllama o a).1 = .ok "Maximum iterations reached"
      ∧ (chatOllama o a).2.2 = 10) := by
  constructor
  · exact chatOllamaLoop_calls_le o 10 _ a
  · intro h hO
    exact chatOllamaLoop_all_tools o hO 10 _ a h

/-- An oracle whose OpenAI-compatible endpoint always answers with a tool
call. -/
def oracleLoopW : Oracle where
  anth := []
  gemini := .error "unused"
  health := .ok ()
  ollamaCreate := fun _ =>
    .ok { content := none,
          tool_calls := [{ id := "t1", name := "run_bash",
                           arguments := [("command", "true")] }] }

/-- A session whose `ollama_client` attribute has been set directly, the way
a test stub would. -/
def agentLoopW : Agent := { agentOllamaW with ollama_client := true }

/-- Witness for C3: with the always-tool-calls stub, the loop stops after
exactly ten round-trips with the sentinel. -/
theorem ollama_iteration_bound_witness :
    (chatOllama oracleLoopW agentLoopW).2.2 ≤ 10
    ∧ (chatOllama oracleLoopW agentLoopW).1 = .ok "Maximum iterations reached"
    ∧ (chatOllama oracleLoopW agentLoopW).2.2 = 10 :=
  ⟨(ollama_iteration_bound oracleLoopW agentLoopW).1,
   ((ollama_iteration_bound oracleLoopW agentLoopW).2 rfl
      (fun _ => ⟨_, rfl, by simp⟩)).1,
   ((ollama_iteration_bound oracleLoopW agentLoopW).2 rfl
      (fun _ => ⟨_, rfl, by simp⟩)).2⟩

/-- Appending the user turn at the start of `chat`. -/
def appendUser (a : Agent) (msg : String) : Agent :=
  { a with conversation_history := a.conversation_history ++ [.user msg] }

/-- Helper: executing native tool-use blocks touches only the
operating-system state. -/
theorem runToolUses_pres (blocks : List ContentBlock) :
    ∀ a : Agent, ((runToolUses blocks a).2).anthropic_client = a.anthropic_client
      ∧ ((runToolUses blocks a).2).provider = a.provider := by
  induction blocks with
  | nil => intro a; simp [runToolUses]
  | cons b rest ih =>
    intro a
    rcases b with s | ⟨id, name, inp⟩
    · simp [runToolUses, ih]
    · simp [runToolUses, ih]

/-- Helper: the native adapter loop never changes the client attributes or
the provider identity. -/
theorem chatAnthropicLoop_pres (s : List (Except String AnthResponse)) :
    ∀ (a : Agent) (acc : String),
      ((chatAnthropicLoop s a acc).2).anthropic_client = a.anthropic_client
      ∧ ((chatAnthropicLoop s a acc).2).provider = a.provider := by
  induction s with
  | nil => intro a acc; simp [chatAnthropicLoop]
  | cons r rest ih =>
    intro a acc
    rcases r with e | resp
    · simp [chatAnthropicLoop]
    · simp only [chatAnthropicLoop]
      split
      · simp
      · split
        · constructor
          · rw [(ih _ _).1]
            exact (runToolUses_pres _ _).1
          · rw [(ih _ _).2]
            exact (runToolUses_pres _ _).2
        · constructor
          · rw [(ih _ _).1]
          · rw [(ih _ _).2]

/-- Helper: `_chat_anthropic` never changes the client attributes or the
provider identity. -/
theorem chatAnthropic_pres (o : Oracle) (a : Agent) :
    ((chatAnthropic o a).2).anthropic_client = a.anthropic_client
    ∧ ((chatAnthropic o a).2).provider = a.provider := by
  simp only [chatAnthropic]
  split
  · exact chatAnthropicLoop_pres o.anth a ""
  · exact ⟨rfl, rfl⟩

/-- Helper: the body of `_chat_gemini` never changes the client attributes
or the provider identity. -/
theorem geminiCore_pres (o : Oracle) (a : Agent) :
    ((geminiCore o a).2).anthropic_client = a.anthropic_client
    ∧ ((geminiCore o a).2).provider = a.provider := by
  simp only [geminiCore]
  repeat' split
  all_goals exact ⟨rfl, rfl⟩

/-- Helper: `_chat_gemini` never changes the client attributes or the
provider identity. -/
theorem chatGemini_pres (o : Oracle) (a : Agent) :
    ((chatGemini o a).2).anthropic_client = a.anthropic_client
    ∧ ((chatGemini o a).2).provider = a.provider := by
  simp only [chatGemini]
  split
  · rename_i t a1 heq
    have h1 := geminiCore_pres o a
    rw [heq] at h1
    exact h1
  · rename_i e a1 heq
    have h1 := geminiCore_pres o a
    rw [heq] at h1
    split
    · constructor
      · rw [(chatAnthropic_pres o a1).1]
        exact h1.1
      · rw [(chatAnthropic_pres o a1).2]
        exact h1.2
    · exact h1

/-- Helper: the loop of `_chat_ollama` never changes the client attributes
or the provider identity. -/
theorem chatOllamaLoop_pres (o : Oracle) :
    ∀ (fuel : Nat) (msgs : List OMsg) (a : Agent),
      ((chatOllamaLoop o fuel msgs a).2.1).anthropic_client = a.anthropic_client
      ∧ ((chatOllamaLoop o fuel msgs a).2.1).provider = a.provider := by
  intro fuel
  induction fuel with
  | zero => intro msgs a; simp [chatOllamaLoop]
  | succ n ih =>
    intro msgs a
    simp only [chatOllamaLoop]
    split
    · split
      · split
        · constructor
          · rw [(chatAnthropic_pres o a).1]
          · rw [(chatAnthropic_pres o a).2]
        · exact ⟨rfl, rfl⟩
      · split
        · exact ⟨rfl, rfl⟩
        · constructor
          · rw [(ih _ _).1]
            exact (runOllamaTools_fields _ _ _).2.1
          · rw [(ih _ _).2]
            exact (runOllamaTools_fields _ _ _).2.2
    · split
      · constructor
        · rw [(chatAnthropic_pres o a).1]
        · rw [(chatAnthropic_pres o a).2]
      · exact ⟨rfl, rfl⟩

/-- Helper: `_chat_ollama` never changes the client attributes or the
provider identity. -/
theorem chatOllama_pres (o : Oracle) (a : Agent) :
    ((chatOllama o a).2.1).anthropic_client = a.anthropic_client
    ∧ ((chatOllama o a).2.1).provider = a.provider :=
  chatOllamaLoop_pres o 10 _ a

/-- Helper: the primary attempt inside `chat` never changes the client
attributes or the provider identity. -/
theorem primaryAttempt_pres (o : Oracle) (a : Agent) :
    ((primaryAttempt o a).2).anthropic_client = a.anthropic_client
    ∧ ((primaryAttempt o a).2).provider = a.provider := by
  simp only [primaryAttempt]
  split
  · exact chatAnthropic_pres o a
  · split
    · exact chatGemini_pres o a
    · split
      · rcases hh : o.health with e | u
        · simp only [hh]
          split
          · constructor
            · rw [(chatAnthropic_pres o a).1]
            · rw [(chatAnthropic_pres o a).2]
          · exact ⟨rfl, rfl⟩
        · simp only [hh]
          split
          · rename_i t a1 heq
            have h2 : a1 = (chatOllama o a).2.1 := (congrArg Prod.snd heq).symm
            subst h2
            exact chatOllama_pres o a
          · rename_i e a1 heq
            have h2 : a1 = (chatOllama o a).2.1 := (congrArg Prod.snd heq).symm
            subst h2
            split
            · constructor
              · rw [(chatAnthropic_pres o _).1]
                exact (chatOllama_pres o a).1
              · rw [(chatAnthropic_pres o _).2]
                exact (chatOllama_pres o a).2
            · exact chatOllama_pres o a
      · exact ⟨rfl, rfl⟩

/-- Counterexample for C2: on the concrete session with active provider
ollama and no anthropic credential, the adapter raises the attribute error,
but `chat` surfaces a different exception — the original failure wrapped in
an `Ollama unavailable and no Anthropic fallback` message — so the failure
does not propagate to the caller unchanged. -/
theorem chat_ollama_failure_wrapped_cex :
    (chat oracleW agentOllamaW "hello").1
      = .error ("Ollama unavailable and no Anthropic fallback: " ++ ollamaAttrErr)
    ∧ (chat oracleW agentOllamaW "hello").1 ≠ .error ollamaAttrErr := by
  constructor
  · rfl
  · intro h
    rw [show (chat oracleW agentOllamaW "hello").1
        = .error ("Ollama unavailable and no Anthropic fallback: " ++ ollamaAttrErr)
        from rfl] at h
    injection h with h1
    exact absurd h1 (by decide)

/-- Helper: when the gemini request raises, the body of `_chat_gemini`
leaves the session state untouched (it appends to the history only on
success). -/
theorem geminiCore_error_state (o : Oracle) (a : Agent) (e : String)
    (h : (geminiCore o a).1 = .error e) : (geminiCore o a).2 = a := by
  rcases hg : o.gemini with ge | t?
  · cases hgc : a.gemini_client <;> simp [geminiCore, hg, hgc]
  · cases hgc : a.gemini_client
    · simp [geminiCore, hgc]
    · exfalso
      rcases t? with _ | t
      · simp [geminiCore, hg, hgc] at h
      · by_cases ht : t = "" <;> simp [geminiCore, hg, hgc, ht] at h

/-- Helper: `chat` never changes the provider identity, whichever path it
takes. -/
theorem chat_pres (o : Oracle) (a : Agent) (msg : String) :
    ((chat o a msg).2).provider = a.provider := by
  simp only [chat]
  split
  · rename_i t a2 heq
    have h2 : a2 = (primaryAttempt o { a with conversation_history :=
        a.conversation_history ++ [HMsg.user msg] }).2 :=
      (congrArg Prod.snd heq).symm
    subst h2
    exact (primaryAttempt_pres o _).2
  · rename_i e a2 heq
    have h2 : a2 = (primaryAttempt o { a with conversation_history :=
        a.conversation_history ++ [HMsg.user msg] }).2 :=
      (congrArg Prod.snd heq).symm
    subst h2
    split
    · rw [(chatAnthropic_pres o _).2]
      exact (primaryAttempt_pres o _).2
    · exact (primaryAttempt_pres o _).2

/-- C2 amended: the provider identity always still reports the primary
provider after `chat`; on a session whose active provider is not anthropic
but whose anthropic client is configured, a failure raised by the primary
adapter (the gemini request, the ollama connectivity probe, the missing
ollama client, or the first ollama provider call) makes `chat` return the
anthropic adapter result for that same user turn; with no anthropic client
configured, a gemini failure propagates to the caller unchanged, while an
ollama failure propagates wrapped in an `Ollama unavailable and no
Anthropic fallback` exception. -/
theorem chat_fallback_amended (o : Oracle) (a : Agent) (msg : String) (e t : String) :
    ((chat o a msg).2).provider = a.provider
    ∧ (a.provider = "gemini" → a.anthropic_client = true →
        (geminiCore o (appendUser a msg)).1 = .error e →
        (chatAnthropic o (appendUser a msg)).1 = .ok t →
        (chat o a msg).1 = .ok t)
    ∧ (a.provider = "ollama" → a.anthropic_client = true →
        (o.health = .error e
          ∨ (o.health = .ok () ∧ a.ollama_client = false)
          ∨ (o.health = .ok () ∧ a.ollama_client = true
              ∧ o.ollamaCreate (.system (appendUser a msg).system_prompt
                  :: omsgsOfHistory (appendUser a msg).conversation_history)
                = .error e)) →
        (chatAnthropic o (appendUser a msg)).1 = .ok t →
        (chat o a msg).1 = .ok t)
    ∧ (a.provider = "gemini" → a.anthropic_client = false →
        (geminiCore o (appendUser a msg)).1 = .error e →
        (chat o a msg).1 = .error e)
    ∧ (a.provider = "ollama" → a.anthropic_client = false →
        (o.health = .error e
          ∨ (o.health = .ok () ∧ a.ollama_client = false ∧ e = ollamaAttrErr)) →
        (chat o a msg).1
          = .error ("Ollama unavailable and no Anthropic fallback: " ++ e)) := by
  refine ⟨chat_pres o a msg, ?_, ?_, ?_, ?_⟩
  · intro hpv hac hge hok
    have hst := geminiCore_error_state o (appendUser a msg) e hge
    have hcg : chatGemini o (appendUser a msg) = chatAnthropic o (appendUser a msg) := by
      rcases hG : geminiCore o (appendUser a msg) with ⟨gres, ga⟩
      rw [hG] at hge hst
      have h1 : gres = Except.error e := hge
      subst h1
      have h2 : ga = appendUser a msg := hst
      subst h2
      simp [chatGemini, hG, show (appendUser a msg).anthropic_client = true from hac]
    have hPA : primaryAttempt o (appendUser a msg)
        = chatAnthropic o (appendUser a msg) := by
      simp [primaryAttempt, show (appendUser a msg).provider = "gemini" from hpv, hcg]
    rcases hA : chatAnthropic o (appendUser a msg) with ⟨ares, aa⟩
    rw [hA] at hok hPA
    have h3 : ares = Except.ok t := hok
    subst h3
    rw [show appendUser a msg
        = { a with conversation_history := a.conversation_history ++ [HMsg.user msg] }
        from rfl] at hPA
    simp [chat, hPA]
  · intro hpv hac hd hok
    rcases hA : chatAnthropic o (appendUser a msg) with ⟨ares, aa⟩
    rw [hA] at hok
    have h3 : ares = Except.ok t := hok
    subst h3
    have hPA : primaryAttempt o (appendUser a msg) = (Except.ok t, aa) := by
      rcases hd with hh | ⟨hh, hoc⟩ | ⟨hh, hoc, hcr⟩
      · simp [primaryAttempt, show (appendUser a msg).provider = "ollama" from hpv,
          hh, show (appendUser a msg).anthropic_client = true from hac, hA]
      · simp [primaryAttempt, chatOllama, chatOllamaLoop,
          show (appendUser a msg).provider = "ollama" from hpv, hh,
          show (appendUser a msg).anthropic_client = true from hac,
          show (appendUser a msg).ollama_client = false from hoc, hA]
      · simp [primaryAttempt, chatOllama, chatOllamaLoop,
          show (appendUser a msg).provider = "ollama" from hpv, hh,
          show (appendUser a msg).anthropic_client = true from hac,
          show (appendUser a msg).ollama_client = true from hoc, hcr, hA]
    rw [show appendUser a msg
        = { a with conversation_history := a.conversation_history ++ [HMsg.user msg] }
        from rfl] at hPA
    simp [chat, hPA]
  · intro hpv hac hge
    have hg := geminiCore_pres o (appendUser a msg)
    rcases hG : geminiCore o (appendUser a msg) with ⟨gres, ga⟩
    rw [hG] at hge hg
    have hres : gres = Except.error e := hge
    subst hres
    have hgac : ga.anthropic_client = false := by
      rw [show ga.anthropic_client = (appendUser a msg).anthropic_client from hg.1]
      exact hac
    rw [show (appendUser a msg) = { a with conversation_history :=
      a.conversation_history ++ [.user msg] } from rfl] at hG
    rw [hpv] at hG
    simp [chat, primaryAttempt, chatGemini, hG, hpv, hgac]
  · intro hpv hac hd
    rcases hd with hh | ⟨hh, hoc, he⟩
    · simp [chat, primaryAttempt, hpv, hac, hh]
    · subst he
      simp [chat, primaryAttempt, chatOllama, chatOllamaLoop, hpv, hac, hh, hoc]

/-- The concrete gemini session with the anthropic fallback client
configured. -/
def agentGemW : Agent := { agentW with anthropic_client := true }

/-- An oracle whose gemini and anthropic endpoints both fail. -/
def oracleFallW : Oracle where
  anth := [.error "anthropic down"]
  gemini := .error "gemini down"
  health := .ok ()
  ollamaCreate := fun _ => .error "unused"

/-- An oracle whose gemini endpoint fails while the anthropic endpoint
answers the same turn with a final text. -/
def oracleFallOkW : Oracle where
  anth := [.ok { content := [.text "fallback answer"], stop_reason := "end_turn" }]
  gemini := .error "gemini down"
  health := .ok ()
  ollamaCreate := fun _ => .error "unused"

/-- The concrete ollama session with the anthropic fallback client
configured. -/
def agentOllamaAnthW : Agent := { agentOllamaW with anthropic_client := true }

/-- Witness for the amended C2: the spec fallback scenario — the primary
adapter fails (gemini request down, or the ollama adapter with its missing
client), the anthropic stub succeeds, `chat` returns the stub text and the
provider field still reports the primary; and without the fallback client a
gemini failure propagates unchanged while an ollama failure propagates
wrapped. -/
theorem chat_fallback_amended_witness :
    (chat oracleFallOkW agentGemW "hello").2.provider = "gemini"
    ∧ (chat oracleFallOkW agentGemW "hello").1 = .ok "fallback answer"
    ∧ (chat oracleFallOkW agentOllamaAnthW "hello").1 = .ok "fallback answer"
    ∧ (chat oracleFallW agentW "hi").1 = .error "gemini down"
    ∧ (chat oracleW agentOllamaW "hi").1
        = .error ("Ollama unavailable and no Anthropic fallback: " ++ ollamaAttrErr) := by
  refine ⟨?_, ?_, ?_, ?_, ?_⟩
  · exact (chat_fallback_amended oracleFallOkW agentGemW "hello" "gemini down"
      "fallback answer").1
  · exact (chat_fallback_amended oracleFallOkW agentGemW "hello" "gemini down"
      "fallback answer").2.1 rfl rfl rfl rfl
  · exact (chat_fallback_amended oracleFallOkW agentOllamaAnthW "hello" "unused"
      "fallback answer").2.2.1 rfl rfl (Or.inr (Or.inl ⟨rfl, rfl⟩)) rfl
  · exact (chat_fallback_amended oracleFallW agentW "hi" "gemini down" "unused").2.2.2.1
      rfl rfl rfl
  · exact (chat_fallback_amended oracleW agentOllamaW "hi" ollamaAttrErr "unused").2.2.2.2
      rfl rfl (Or.inr ⟨rfl, rfl, rfl⟩)
